import Mathlib

/-!
Shallow embedding of `diffprivlib/mechanisms/vector.py`, the vector mechanism
for differentially private objective perturbation.

Python floats are modelled as exact reals (`ℝ`); `None`-able attributes as
`Option`; raised exceptions (`TypeError` / `ValueError`) as an error value
returned next to the (possibly mutated) object state, so that theorems can
speak about the state present at the moment an exception escapes.  Ambient
randomness (`np.random.normal`, `np.random.gamma`) is modelled by an explicit
oracle stream `ρ : ℕ → ℝ` of pre-drawn variates, consumed left to right.

The base class `DPMechanism` is not part of the source tree; its two
behaviours used here (`set_epsilon_delta` storage with the `epsilon > 0`
check, and the base `check_inputs` check that epsilon is set and positive)
are modelled from the spec and are marked as such.
-/

namespace VectorMech

/-- Error kinds: `TypeKind` models Python `TypeError`, `ValueKind` models
Python `ValueError`. -/
inductive Err where
  | TypeKind
  | ValueKind
  deriving DecidableEq, Repr

/-- A Python argument position that expects a number: either an actual
numeric value (`isinstance(x, Real)` holds) or anything else. -/
inductive PyVal where
  | real (x : ℝ)
  | nonNumeric

/-- The mutable configuration entity of the `Vector` mechanism.
`epsilon`/`delta` live in the base class (not in the source tree); the
remaining fields are initialised exactly as in `Vector.__init__`:
`_function_sensitivity = None`, `_data_sensitivity = 1`, `_d = None`,
`_alpha = 0.01`. -/
structure Config where
  epsilon : Option ℝ := none
  delta : Option ℝ := none
  function_sensitivity : Option ℝ := none
  data_sensitivity : Option ℝ := some 1
  d : Option ℤ := none
  alpha : ℝ := 0.01

/-- Truncation toward zero, as Python `int(d)` on a float. -/
noncomputable def intTrunc (x : ℝ) : ℤ :=
  if 0 ≤ x then ⌊x⌋ else ⌈x⌉

/-- Numpy's `np.isclose(a, b)` with its default tolerances
`rtol = 1e-5`, `atol = 1e-8`: `|a - b| ≤ atol + rtol * |b|`. -/
def isclose (a b : ℝ) : Prop :=
  |a - b| ≤ 1e-8 + 1e-5 * |b|

noncomputable instance (a b : ℝ) : Decidable (isclose a b) :=
  inferInstanceAs (Decidable (|a - b| ≤ 1e-8 + 1e-5 * |b|))

/-- Modelled from the spec: the base class `DPMechanism.set_epsilon_delta`
(missing from the source tree) performs "the shared base validation requiring
`epsilon > 0` (fails ValueKind if not)" and stores both values. -/
noncomputable def set_epsilon_delta_base (cfg : Config) (epsilon delta : ℝ) :
    Option Err × Config :=
  if epsilon ≤ 0 then (some .ValueKind, cfg)
  else (none, { cfg with epsilon := some epsilon, delta := some delta })

/-- Source `Vector.set_epsilon_delta`: `if not delta == 0: raise ValueError`;
otherwise delegate to the base class. -/
noncomputable def set_epsilon_delta (cfg : Config) (epsilon delta : ℝ) :
    Option Err × Config :=
  if ¬ delta = 0 then (some .ValueKind, cfg)
  else set_epsilon_delta_base cfg epsilon delta

/-- Source `Vector.set_sensitivity`: `TypeError` if either argument is not numeric,
`ValueError` if either is `≤ 0`, otherwise both fields are assigned. -/
noncomputable def set_sensitivity (cfg : Config)
    (function_sensitivity data_sensitivity : PyVal) : Option Err × Config :=
  match function_sensitivity, data_sensitivity with
  | .real c, .real g =>
      if c ≤ 0 ∨ g ≤ 0 then (some .ValueKind, cfg)
      else (none, { cfg with function_sensitivity := some c,
                             data_sensitivity := some g })
  | _, _ => (some .TypeKind, cfg)

/-- Source `Vector.set_alpha`: `TypeError` if not numeric, `ValueError` if `≤ 0`,
otherwise assigned. -/
noncomputable def set_alpha (cfg : Config) (alpha : PyVal) :
    Option Err × Config :=
  match alpha with
  | .real a =>
      if a ≤ 0 then (some .ValueKind, cfg)
      else (none, { cfg with alpha := a })
  | .nonNumeric => (some .TypeKind, cfg)

/-- Source `Vector.set_dimension`: `TypeError` if not numeric or not
`np.isclose(d, int(d))`; `ValueError` if not `d >= 1`; stores `int(d)`. -/
noncomputable def set_dimension (cfg : Config) (d : PyVal) :
    Option Err × Config :=
  match d with
  | .real x =>
      if ¬ isclose x (intTrunc x : ℝ) then (some .TypeKind, cfg)
      else if ¬ 1 ≤ x then (some .ValueKind, cfg)
      else (none, { cfg with d := some (intTrunc x) })
  | .nonNumeric => (some .TypeKind, cfg)

/-- Modelled from the spec: the base class `DPMechanism.check_inputs`
(missing from the source tree) performs "the base check that `epsilon` is
set and positive", failing ValueKind otherwise. -/
noncomputable def check_inputs_base (cfg : Config) : Option Err :=
  match cfg.epsilon with
  | none => some .ValueKind
  | some e => if e ≤ 0 then some .ValueKind else none

/-- Source `Vector.check_inputs`: runs the base check, then `TypeError` if `value`
is not callable, then `ValueError` if either sensitivity is unset, then
`ValueError` if the dimension is unset; returns `True` otherwise.  The
source assigns no attribute, and the returned state reflects that. -/
noncomputable def check_inputs (cfg : Config) (valueCallable : Bool) :
    Except Err Bool × Config :=
  match check_inputs_base cfg with
  | some e => (.error e, cfg)
  | none =>
      if ¬ valueCallable then (.error .TypeKind, cfg)
      else if cfg.data_sensitivity = none ∨ cfg.function_sensitivity = none then
        (.error .ValueKind, cfg)
      else if cfg.d = none then (.error .ValueKind, cfg)
      else (.ok true, cfg)

/-- A vector, as a list of reals (a 1-d numpy array). -/
abbrev Vec := List ℝ

/-- Numpy `np.dot` on equal-length 1-d arrays. -/
def dot (v w : Vec) : ℝ := (List.zipWith (· * ·) v w).sum

/-- Elementwise vector addition (numpy `+` on equal-length arrays). -/
def vadd (v w : Vec) : Vec := List.zipWith (· + ·) v w

/-- Scalar multiplication of a vector (numpy `delta * w`). -/
def smul (c : ℝ) (v : Vec) : Vec := v.map (fun x => c * x)

/-- Numpy `np.linalg.norm(v, 2)`: the Euclidean norm. -/
noncomputable def norm2 (v : Vec) : ℝ :=
  Real.sqrt ((v.map (fun x => x ^ 2)).sum)

/-- A value returned by the Python objective `value(*args)`: a bare scalar,
an actual tuple `(f, grad)`, or a non-tuple sequence (e.g. a 1-d array),
which broadcasts under scalar addition. -/
inductive PyObj where
  | scalar (f : ℝ)
  | tup (f : ℝ) (grad : Vec)
  | arr (v : Vec)

/-- Python `isinstance(func, tuple)`. -/
def PyObj.isTuple : PyObj → Bool
  | .tup _ _ => true
  | _ => false

/-- The privacy-budget computation of `Vector.randomise` (lines 185-191):
`epsilon_p = epsilon - 2*log(1 + c*g/(0.5*a))`, `delta = 0`, and if
`epsilon_p <= 0` then `delta = c*g/(exp(epsilon/4) - 1) - 0.5*a` and
`epsilon_p = epsilon/2`.  Returns `(epsilon_p, delta)`. -/
noncomputable def budget (epsilon c g a : ℝ) : ℝ × ℝ :=
  let epsilon_p := epsilon - 2 * Real.log (1 + c * g / (0.5 * a))
  let delta : ℝ := 0
  if epsilon_p ≤ 0 then
    (epsilon / 2, c * g / (Real.exp (epsilon / 4) - 1) - 0.5 * a)
  else (epsilon_p, delta)

/-- The sampler's rate parameter: `scale = epsilon_p / 2 / g` (line 192). -/
noncomputable def scaleOf (epsilon c g a : ℝ) : ℝ :=
  (budget epsilon c g a).1 / 2 / g

/-- Claim-side budget formulas, written from the spec's words (§4.2), to be
compared with `budget` and `scaleOf` as transcribed from the source:
`epsilonPrime = epsilon - 2*ln(1 + c*g/(0.5*a))` with `deltaResidual = 0`,
replaced on `epsilonPrime ≤ 0` by `deltaResidual =
c*g/(exp(epsilon/4) - 1) - 0.5*a` and `epsilonPrime = epsilon/2`. -/
noncomputable def specBudget (epsilon c g a : ℝ) : ℝ × ℝ :=
  if epsilon - 2 * Real.log (1 + c * g / (0.5 * a)) ≤ 0 then
    (epsilon / 2, c * g / (Real.exp (epsilon / 4) - 1) - 0.5 * a)
  else (epsilon - 2 * Real.log (1 + c * g / (0.5 * a)), 0)

/-- Numpy `np.random.normal(0, 1, d)`: the first `d` variates of the oracle
stream. -/
def normalDraws (ρ : ℕ → ℝ) (d : ℕ) : Vec :=
  (List.range d).map ρ

/-- Numpy `np.random.gamma(d, 1/scale, 1)`: the single Gamma variate with shape
`d` and scale `1/scale`, drawn after the `d` normal variates.  In the
oracle model the stream supplies the drawn value directly (the
distribution's parameters shape only the distribution, which the embedding
does not model); it sits at position `d` of the stream. -/
def gammaSample (ρ : ℕ → ℝ) (d : ℕ) : ℝ := ρ d

/-- The noise-vector sampler of `Vector.randomise` (lines 194-198):
draw `d` standard normals, divide by their Euclidean norm and multiply by
the Gamma magnitude. -/
noncomputable def noiseVector (ρ : ℕ → ℝ) (d : ℕ) : Vec :=
  let normed_noisy_vector := normalDraws ρ d
  let norm := norm2 normed_noisy_vector
  let noisy_norm := gammaSample ρ d
  normed_noisy_vector.map (fun x => x / norm * noisy_norm)

/-- The wrapper `output_func` returned by `Vector.randomise`
(lines 200-218).  `args[0]` is `w`; the whole argument list is passed on to
`value`.  A tuple result is split into `(func, grad)`; otherwise
`grad = None`.  Then `func += np.dot(b, w)`, `func += 0.5*delta*np.dot(w,w)`
(broadcasting elementwise over a non-tuple array result), and if a gradient
is present `grad += b + delta*w` and the pair is returned. -/
noncomputable def output_func (b : Vec) (delta : ℝ)
    (value : Vec → List Vec → PyObj) (w : Vec) (rest : List Vec) : PyObj :=
  match value w rest with
  | .tup f grad =>
      .tup (f + dot b w + 0.5 * delta * dot w w)
           (vadd grad (vadd b (smul delta w)))
  | .scalar f => .scalar (f + dot b w + 0.5 * delta * dot w w)
  | .arr v => .arr (v.map (fun x => x + dot b w + 0.5 * delta * dot w w))

/-- Source `Vector.randomise`: run `check_inputs`, compute the adjusted budget and
scale, sample the noise vector from the oracle stream, and return the
wrapper.  The result triple is (outcome, remaining oracle stream,
configuration state on exit); an escaping exception leaves the stream and
the configuration exactly as they were. -/
noncomputable def randomise (cfg : Config) (valueCallable : Bool)
    (value : Vec → List Vec → PyObj) (ρ : ℕ → ℝ) :
    Except Err (Vec → List Vec → PyObj) × (ℕ → ℝ) × Config :=
  match (check_inputs cfg valueCallable).1 with
  | .error e => (.error e, ρ, cfg)
  | .ok _ =>
      let c := cfg.function_sensitivity.getD 0
      let g := cfg.data_sensitivity.getD 0
      let a := cfg.alpha
      let epsilon_p := (budget (cfg.epsilon.getD 0) c g a).1
      let delta := (budget (cfg.epsilon.getD 0) c g a).2
      let _scale := epsilon_p / 2 / g
      let d := (cfg.d.getD 0).toNat
      let b := noiseVector ρ d
      (.ok (output_func b delta value), fun n => ρ (n + d + 1), cfg)

/-- C4: `set_dimension d` succeeds and stores the truncated integer `int(d)`
iff `d` is integer-valued within numpy's `isclose` tolerance and `d ≥ 1`;
it fails TypeKind when `d` is not numeric or not integer-valued, and fails
ValueKind when `d` is integer-valued but `< 1`. -/
theorem set_dimension_spec (cfg : Config) :
    (∀ x : ℝ, isclose x (intTrunc x : ℝ) → 1 ≤ x →
        set_dimension cfg (.real x) = (none, { cfg with d := some (intTrunc x) }))
  ∧ (∀ x : ℝ, ¬ isclose x (intTrunc x : ℝ) →
        (set_dimension cfg (.real x)).1 = some .TypeKind)
  ∧ (set_dimension cfg .nonNumeric).1 = some .TypeKind
  ∧ (∀ x : ℝ, isclose x (intTrunc x : ℝ) → x < 1 →
        (set_dimension cfg (.real x)).1 = some .ValueKind)
  ∧ (∀ x : ℝ, ((set_dimension cfg (.real x)).1 = none ↔
        isclose x (intTrunc x : ℝ) ∧ 1 ≤ x)) := by
  refine ⟨?_, ?_, ?_, ?_, ?_⟩
  · intro x hclose hge
    simp [set_dimension, hclose, hge]
  · intro x hclose
    simp [set_dimension, hclose]
  · simp [set_dimension]
  · intro x hclose hlt
    simp [set_dimension, hclose, not_le.mpr hlt]
  · intro x
    by_cases hclose : isclose x (intTrunc x : ℝ)
    · by_cases hge : 1 ≤ x
      · simp [set_dimension, hclose, hge]
      · simp [set_dimension, hclose, hge]
    · simp [set_dimension, hclose]

/-- Witness for C4: at `d = 3` the setter succeeds and stores `int(3) = 3`. -/
theorem set_dimension_spec_witness :
    set_dimension {} (.real 3) = (none, { ({} : Config) with d := some (intTrunc 3) }) := by
  refine (set_dimension_spec {}).1 3 ?_ (by norm_num)
  have ht : (intTrunc 3 : ℝ) = 3 := by
    norm_num [intTrunc]
  rw [ht]
  norm_num [isclose]

/-- C5: `set_epsilon_delta` with nonzero delta always fails ValueKind,
before any epsilon validation; with delta = 0 it fails ValueKind iff
`epsilon ≤ 0` and succeeds otherwise, storing both values. -/
theorem set_epsilon_delta_spec (cfg : Config) :
    (∀ e δ : ℝ, δ ≠ 0 → (set_epsilon_delta cfg e δ).1 = some .ValueKind)
  ∧ (∀ e : ℝ, ((set_epsilon_delta cfg e 0).1 = some .ValueKind ↔ e ≤ 0))
  ∧ (∀ e : ℝ, 0 < e →
      set_epsilon_delta cfg e 0 =
        (none, { cfg with epsilon := some e, delta := some 0 })) := by
  refine ⟨?_, ?_, ?_⟩
  · intro e δ hδ
    simp [set_epsilon_delta, hδ]
  · intro e
    by_cases he : e ≤ 0
    · simp [set_epsilon_delta, set_epsilon_delta_base, he]
    · simp [set_epsilon_delta, set_epsilon_delta_base, he]
  · intro e he
    simp [set_epsilon_delta, set_epsilon_delta_base, not_le.mpr he]

/-- Witness for C5: delta = 1/2 is rejected for a valid epsilon, and
`(epsilon, delta) = (1, 0)` is accepted and stored. -/
theorem set_epsilon_delta_spec_witness :
    (set_epsilon_delta {} 1 (1 / 2)).1 = some .ValueKind ∧
    set_epsilon_delta {} 1 0 =
      (none, { ({} : Config) with epsilon := some 1, delta := some 0 }) :=
  ⟨(set_epsilon_delta_spec {}).1 1 (1 / 2) (by norm_num),
   (set_epsilon_delta_spec {}).2.2 1 (by norm_num)⟩

/-- C10: `set_sensitivity`, `set_alpha` and `set_dimension` validate before
assigning, so on any failure the configuration is unchanged; in particular
`set_sensitivity` with a valid function sensitivity and an invalid data
sensitivity (non-numeric, or numeric but non-positive) stores neither. -/
theorem setters_validate_before_assign :
    (∀ (cfg : Config) (fs ds : PyVal) (e : Err),
        (set_sensitivity cfg fs ds).1 = some e → (set_sensitivity cfg fs ds).2 = cfg)
  ∧ (∀ (cfg : Config) (a : PyVal) (e : Err),
        (set_alpha cfg a).1 = some e → (set_alpha cfg a).2 = cfg)
  ∧ (∀ (cfg : Config) (v : PyVal) (e : Err),
        (set_dimension cfg v).1 = some e → (set_dimension cfg v).2 = cfg)
  ∧ (∀ (cfg : Config) (c : ℝ), 0 < c →
        (set_sensitivity cfg (.real c) .nonNumeric).1 = some .TypeKind ∧
        (set_sensitivity cfg (.real c) .nonNumeric).2 = cfg)
  ∧ (∀ (cfg : Config) (c g : ℝ), 0 < c → g ≤ 0 →
        (set_sensitivity cfg (.real c) (.real g)).1 = some .ValueKind ∧
        (set_sensitivity cfg (.real c) (.real g)).2 = cfg) := by
  refine ⟨?_, ?_, ?_, ?_, ?_⟩
  · intro cfg fs ds e h
    cases fs with
    | real c =>
        cases ds with
        | real g =>
            by_cases hv : c ≤ 0 ∨ g ≤ 0
            · simp [set_sensitivity, hv]
            · simp [set_sensitivity, hv] at h
        | nonNumeric => simp [set_sensitivity]
    | nonNumeric => cases ds <;> simp [set_sensitivity]
  · intro cfg a e h
    cases a with
    | real x =>
        by_cases hv : x ≤ 0
        · simp [set_alpha, hv]
        · simp [set_alpha, hv] at h
    | nonNumeric => simp [set_alpha]
  · intro cfg v e h
    cases v with
    | real x =>
        by_cases hclose : isclose x (intTrunc x : ℝ)
        · by_cases hge : 1 ≤ x
          · simp [set_dimension, hclose, hge] at h
          · simp [set_dimension, hclose, hge]
        · simp [set_dimension, hclose]
    | nonNumeric => simp [set_dimension]
  · intro cfg c _hc
    simp [set_sensitivity]
  · intro cfg c g hc hg
    constructor
    · simp [set_sensitivity, Or.inr hg]
    · simp [set_sensitivity, Or.inr hg]

/-- Witness for C10: `set_sensitivity` at `(c, g) = (1, -1)` fails
ValueKind and leaves the default configuration unchanged (neither value is
stored). -/
theorem setters_validate_before_assign_witness :
    (set_sensitivity {} (.real 1) (.real (-1))).1 = some .ValueKind ∧
    (set_sensitivity {} (.real 1) (.real (-1))).2 = ({} : Config) :=
  setters_validate_before_assign.2.2.2.2 {} 1 (-1) (by norm_num) (by norm_num)

/-- C6: `randomise` on a callable fails ValueKind whenever a sensitivity or
the dimension is unset, whatever the epsilon state; `check_inputs` fails
TypeKind on a non-callable (once the base epsilon check passes), returns
`True` when the value is callable and epsilon, the sensitivities and the
dimension are all set, and never mutates the configuration. -/
theorem check_inputs_spec :
    (∀ (cfg : Config) (value : Vec → List Vec → PyObj) (ρ : ℕ → ℝ),
        (cfg.function_sensitivity = none ∨ cfg.data_sensitivity = none ∨
          cfg.d = none) →
        (randomise cfg true value ρ).1 = .error .ValueKind)
  ∧ (∀ (cfg : Config) (e : ℝ), cfg.epsilon = some e → 0 < e →
        (check_inputs cfg false).1 = .error .TypeKind)
  ∧ (∀ (cfg : Config) (e : ℝ), cfg.epsilon = some e → 0 < e →
        cfg.function_sensitivity ≠ none → cfg.data_sensitivity ≠ none →
        cfg.d ≠ none → (check_inputs cfg true).1 = .ok true)
  ∧ (∀ (cfg : Config) (b : Bool), (check_inputs cfg b).2 = cfg) := by
  refine ⟨?_, ?_, ?_, ?_⟩
  · intro cfg value ρ h
    have hc : (check_inputs cfg true).1 = .error .ValueKind := by
      unfold check_inputs check_inputs_base
      cases heps : cfg.epsilon with
      | none => simp
      | some e =>
          by_cases he : e ≤ 0
          · simp [he]
          · rcases h with h | h | h
            · simp [he, h]
            · simp [he, h]
            · by_cases hds : cfg.data_sensitivity = none ∨
                  cfg.function_sensitivity = none
              · simp [he, hds]
              · simp [he, hds, h]
    simp [randomise, hc]
  · intro cfg e heps he
    simp [check_inputs, check_inputs_base, heps, not_le.mpr he]
  · intro cfg e heps he hfs hds hd
    simp [check_inputs, check_inputs_base, heps, not_le.mpr he, hfs, hds, hd]
  · intro cfg b
    unfold check_inputs
    cases check_inputs_base cfg with
    | none => split_ifs <;> rfl
    | some e => rfl

/-- Witness for C6: a configuration with `epsilon = 1` set but no function
sensitivity makes `randomise` fail ValueKind; with everything set,
a non-callable makes `check_inputs` fail TypeKind, a callable passes, and
the state is returned unchanged. -/
theorem check_inputs_spec_witness :
    (randomise ⟨some 1, some 0, none, some 1, none, 0.01⟩ true
        (fun _ _ => .scalar 0) (fun _ => 0)).1 = .error .ValueKind ∧
    (check_inputs ⟨some 1, some 0, some 1, some 1, some 2, 0.01⟩ false).1 =
      .error .TypeKind ∧
    (check_inputs ⟨some 1, some 0, some 1, some 1, some 2, 0.01⟩ true).1 =
      .ok true ∧
    (check_inputs ⟨some 1, some 0, some 1, some 1, some 2, 0.01⟩ true).2 =
      ⟨some 1, some 0, some 1, some 1, some 2, 0.01⟩ :=
  ⟨check_inputs_spec.1 ⟨some 1, some 0, none, some 1, none, 0.01⟩
      (fun _ _ => .scalar 0) (fun _ => 0) (Or.inl rfl),
   check_inputs_spec.2.1 ⟨some 1, some 0, some 1, some 1, some 2, 0.01⟩ 1 rfl
      (by norm_num),
   check_inputs_spec.2.2.1 ⟨some 1, some 0, some 1, some 1, some 2, 0.01⟩ 1 rfl
      (by norm_num) (by simp) (by simp) (by simp),
   check_inputs_spec.2.2.2 ⟨some 1, some 0, some 1, some 1, some 2, 0.01⟩ true⟩

/-- C7: a failing `randomise` call consumes no randomness and leaves the
configuration unchanged, producing no wrapper. -/
theorem randomise_fail_leaves_state (cfg : Config) (vc : Bool)
    (value : Vec → List Vec → PyObj) (ρ : ℕ → ℝ) (e : Err)
    (h : (randomise cfg vc value ρ).1 = .error e) :
    (randomise cfg vc value ρ).2.1 = ρ ∧ (randomise cfg vc value ρ).2.2 = cfg := by
  unfold randomise at h ⊢
  cases hc : (check_inputs cfg vc).1 with
  | error e' => simp [hc]
  | ok b => simp [hc] at h

/-- Witness for C7: the default configuration (epsilon unset) makes
`randomise` fail, and the oracle stream and configuration come back
untouched. -/
theorem randomise_fail_leaves_state_witness :
    (randomise {} true (fun _ _ => .scalar 0) (fun _ => 0)).2.1 = (fun _ => (0 : ℝ)) ∧
    (randomise {} true (fun _ _ => .scalar 0) (fun _ => 0)).2.2 = ({} : Config) :=
  randomise_fail_leaves_state {} true (fun _ _ => .scalar 0) (fun _ => 0)
    .ValueKind (by simp [randomise, check_inputs, check_inputs_base])

/-- C1: for positive `epsilon`, `c`, `g`, `a`, the source's budget
derivation coincides with the spec's formulas and the rate parameter is
`epsilonPrime / (2*g)`; at `(1, 1, 1, 0.01)` the fallback branch activates,
giving `epsilonPrime = 1/2` and `deltaResidual = 1/(exp(1/4) - 1) - 0.005`. -/
theorem budget_spec (e c g a : ℝ) (he : 0 < e) (hc : 0 < c) (hg : 0 < g)
    (ha : 0 < a) :
    budget e c g a = specBudget e c g a
  ∧ scaleOf e c g a = (budget e c g a).1 / (2 * g)
  ∧ (1 : ℝ) - 2 * Real.log (1 + 1 * 1 / (0.5 * 0.01)) ≤ 0
  ∧ budget 1 1 1 0.01 = (1 / 2, 1 / (Real.exp (1 / 4) - 1) - 0.005) := by
  have hlog : (1 : ℝ) - 2 * Real.log (1 + 1 * 1 / (0.5 * 0.01)) ≤ 0 := by
    have h201 : (1 : ℝ) + 1 * 1 / (0.5 * 0.01) = 201 := by norm_num
    rw [h201]
    have hle : (1 : ℝ) ≤ Real.log 201 := by
      rw [Real.le_log_iff_exp_le (by norm_num)]
      have := Real.exp_one_lt_d9
      linarith
    linarith
  refine ⟨rfl, ?_, hlog, ?_⟩
  · unfold scaleOf
    rw [div_div]
  · unfold budget
    rw [if_pos hlog]
    norm_num

/-- Witness for C1: the concrete fallback instance `(1, 1, 1, 0.01)`. -/
theorem budget_spec_witness :
    budget 1 1 1 0.01 = (1 / 2, 1 / (Real.exp (1 / 4) - 1) - 0.005) :=
  (budget_spec 1 1 1 0.01 (by norm_num) (by norm_num) (by norm_num)
    (by norm_num)).2.2.2

/-- C2: the wrapper adds `dot(b, w) + 0.5*delta*dot(w, w)` to the value and
`b + delta*w` to the gradient when the wrapped function returns a pair, adds
the same perturbation to a bare scalar alone, and always returns the same
shape (tuple versus non-tuple) as the wrapped function. -/
theorem output_func_spec (b : Vec) (delta : ℝ)
    (value : Vec → List Vec → PyObj) (w : Vec) (rest : List Vec) :
    (∀ f grad, value w rest = .tup f grad →
        output_func b delta value w rest =
          .tup (f + dot b w + 0.5 * delta * dot w w)
               (vadd grad (vadd b (smul delta w))))
  ∧ (∀ f, value w rest = .scalar f →
        output_func b delta value w rest =
          .scalar (f + dot b w + 0.5 * delta * dot w w))
  ∧ (output_func b delta value w rest).isTuple = (value w rest).isTuple := by
  refine ⟨?_, ?_, ?_⟩
  · intro f grad hv
    simp [output_func, hv]
  · intro f hv
    simp [output_func, hv]
  · unfold output_func
    cases value w rest <;> rfl

/-- Witness for C2: a concrete pair-returning objective at `w = [5]` with
`b = [2]`, `delta = 3`. -/
theorem output_func_spec_witness :
    output_func [2] 3 (fun w _ => .tup 1 w) [5] [] =
      .tup (1 + dot [2] [5] + 0.5 * 3 * dot [5] [5])
           (vadd [5] (vadd [2] (smul 3 [5]))) :=
  (output_func_spec [2] 3 (fun w _ => .tup 1 w) [5] []).1 1 [5] rfl

/-- C9: the wrapper treats the wrapped function's result as a
value-gradient pair exactly when it is a tuple; any non-tuple result (such
as a two-element array) is treated as a bare value, with the perturbation
added to it alone and no gradient returned. -/
theorem output_func_tuple_dispatch (b : Vec) (delta : ℝ)
    (value : Vec → List Vec → PyObj) (w : Vec) (rest : List Vec) :
    ((output_func b delta value w rest).isTuple = true ↔
      (value w rest).isTuple = true)
  ∧ (∀ v, value w rest = .arr v →
        output_func b delta value w rest =
          .arr (v.map (fun x => x + dot b w + 0.5 * delta * dot w w))) := by
  constructor
  · unfold output_func
    cases value w rest <;> simp [PyObj.isTuple]
  · intro v hv
    simp [output_func, hv]

/-- Witness for C9: a two-element array result is perturbed elementwise and
comes back without a gradient. -/
theorem output_func_tuple_dispatch_witness :
    output_func [2] 3 (fun _ _ => .arr [1, 4]) [5] [] =
      .arr ([1, 4].map (fun x => x + dot [2] [5] + 0.5 * 3 * dot [5] [5])) :=
  (output_func_tuple_dispatch [2] 3 (fun _ _ => .arr [1, 4]) [5] []).2 [1, 4] rfl

theorem sum_sq_nonneg (v : Vec) : 0 ≤ (v.map (fun x => x ^ 2)).sum := by
  induction v with
  | nil => simp
  | cons x xs ih =>
      simp only [List.map_cons, List.sum_cons]
      exact add_nonneg (sq_nonneg x) ih

theorem list_sum_map_div (v : Vec) (f : ℝ → ℝ) (c : ℝ) :
    (v.map (fun x => f x / c)).sum = (v.map f).sum / c := by
  induction v with
  | nil => simp
  | cons x xs ih =>
      simp only [List.map_cons, List.sum_cons, ih, add_div]

theorem norm2_map_div (v : Vec) (h : norm2 v ≠ 0) :
    norm2 (v.map (fun x => x / norm2 v)) = 1 := by
  have hs : 0 ≤ (v.map (fun x => x ^ 2)).sum := sum_sq_nonneg v
  have hs0 : (v.map (fun x => x ^ 2)).sum ≠ 0 := by
    intro h0
    exact h (by rw [norm2, h0, Real.sqrt_zero])
  have hn2 : norm2 v ^ 2 = (v.map (fun x => x ^ 2)).sum := Real.sq_sqrt hs
  have hsum : ((v.map (fun x => x / norm2 v)).map (fun x => x ^ 2)).sum
      = (v.map (fun x => x ^ 2)).sum / norm2 v ^ 2 := by
    rw [List.map_map]
    have hfun : ((fun x => x ^ 2) ∘ fun x => x / norm2 v)
        = fun x => (x ^ 2) / norm2 v ^ 2 := by
      funext x
      simp [div_pow]
    rw [hfun, list_sum_map_div]
  rw [norm2, hsum, hn2, div_self hs0, Real.sqrt_one]

/-- C8: for every dimension `d ≥ 1` and every outcome of the normal draws
with nonzero Euclidean norm, the normalised direction has 2-norm exactly 1,
and the sampled noise vector is that unit direction scaled by the single
Gamma magnitude. -/
theorem noise_direction_unit (ρ : ℕ → ℝ) (d : ℕ) (hd : 1 ≤ d)
    (h : norm2 (normalDraws ρ d) ≠ 0) :
    norm2 ((normalDraws ρ d).map (fun x => x / norm2 (normalDraws ρ d))) = 1
  ∧ noiseVector ρ d =
      ((normalDraws ρ d).map (fun x => x / norm2 (normalDraws ρ d))).map
        (fun x => x * gammaSample ρ d) := by
  refine ⟨norm2_map_div (normalDraws ρ d) h, ?_⟩
  unfold noiseVector
  rw [List.map_map]
  rfl

/-- Witness for C8: the constant stream `1` in dimension `1` yields the
unit direction `[1]`. -/
theorem noise_direction_unit_witness :
    norm2 ((normalDraws (fun _ => 1) 1).map
        (fun x => x / norm2 (normalDraws (fun _ => 1) 1))) = 1
  ∧ noiseVector (fun _ => 1) 1 =
      ((normalDraws (fun _ => 1) 1).map
        (fun x => x / norm2 (normalDraws (fun _ => 1) 1))).map
        (fun x => x * gammaSample (fun _ => 1) 1) :=
  noise_direction_unit (fun _ => 1) 1 (le_refl 1)
    (by norm_num [norm2, normalDraws])

/-- C3: a wrapper produced by one successful `randomise` call is a pure
function of its argument: the same `w` gives the same output on repeated
calls, because a single captured noise vector `b` and residual `delta`
determine every invocation's output, with no resampling. -/
theorem randomise_no_resampling (cfg : Config)
    (value : Vec → List Vec → PyObj) (ρ : ℕ → ℝ)
    (F : Vec → List Vec → PyObj)
    (h : (randomise cfg true value ρ).1 = .ok F) :
    ∃ b : Vec, ∃ delta : ℝ, ∀ (w : Vec) (rest : List Vec),
      F w rest = F w rest ∧
      F w rest = (match value w rest with
        | .tup f grad => .tup (f + dot b w + 0.5 * delta * dot w w)
                              (vadd grad (vadd b (smul delta w)))
        | .scalar f => .scalar (f + dot b w + 0.5 * delta * dot w w)
        | .arr v => .arr (v.map (fun x => x + dot b w + 0.5 * delta * dot w w))) := by
  unfold randomise at h
  cases hc : (check_inputs cfg true).1 with
  | error e => rw [hc] at h; exact absurd h (by simp)
  | ok b' =>
      rw [hc] at h
      simp only [Except.ok.injEq] at h
      refine ⟨noiseVector ρ (cfg.d.getD 0).toNat,
        (budget (cfg.epsilon.getD 0) (cfg.function_sensitivity.getD 0)
          (cfg.data_sensitivity.getD 0) cfg.alpha).2, ?_⟩
      intro w rest
      refine ⟨rfl, ?_⟩
      rw [← h]
      unfold output_func
      cases value w rest <;> rfl

/-- Witness for C3: a concrete ready configuration and deterministic stream
produce a wrapper with a fixed captured noise vector and residual. -/
theorem randomise_no_resampling_witness :
    ∃ b : Vec, ∃ delta : ℝ, ∀ (w : Vec) (rest : List Vec),
      output_func (noiseVector (fun _ => 1) 1)
          (budget 1 1 1 0.01).2 (fun _ _ => .scalar 0) w rest =
        output_func (noiseVector (fun _ => 1) 1)
          (budget 1 1 1 0.01).2 (fun _ _ => .scalar 0) w rest ∧
      output_func (noiseVector (fun _ => 1) 1)
          (budget 1 1 1 0.01).2 (fun _ _ => .scalar 0) w rest =
        (match (fun (_ : Vec) (_ : List Vec) => PyObj.scalar 0) w rest with
          | .tup f grad => .tup (f + dot b w + 0.5 * delta * dot w w)
                                (vadd grad (vadd b (smul delta w)))
          | .scalar f => .scalar (f + dot b w + 0.5 * delta * dot w w)
          | .arr v => .arr (v.map (fun x => x + dot b w + 0.5 * delta * dot w w))) :=
  randomise_no_resampling ⟨some 1, some 0, some 1, some 1, some 1, 0.01⟩
    (fun _ _ => .scalar 0) (fun _ => 1)
    (output_func (noiseVector (fun _ => 1) 1) (budget 1 1 1 0.01).2
      (fun _ _ => .scalar 0))
    (by
      unfold randomise
      have hc : (check_inputs ⟨some 1, some 0, some 1, some 1, some 1, 0.01⟩
          true).1 = .ok true := by
        norm_num [check_inputs, check_inputs_base]
        rfl
      rw [hc]
      rfl)

end VectorMech
